import Mathlib

/-!
Shallow embedding of the live-session engine of `src/inspection_tool.py`
(port_status_inspection repository): the pagination engine
`handle_pagination`, the per-device command loop of `inspection`, the
channel probe `channel_closed`, and the device-validation loop of
`__main__`.  Device replies, channel probes and clocks are modelled as
oracles (functions of the iteration / command index); machine text is
Lean `String` with Python string primitives (`strip`, `lower`, `in`,
`replace`) re-implemented executably below.
-/

/-- Python whitespace test used by `str.strip()` (ASCII subset actually
occurring in device output). -/
def pyWS (c : Char) : Bool :=
  c == ' ' || c == '\t' || c == '\n' || c == '\r' || c == '\x0b' || c == '\x0c'

/-- Python `str.strip()`. -/
def pyStrip (s : String) : String :=
  ⟨((s.data.dropWhile pyWS).reverse.dropWhile pyWS).reverse⟩

/-- Python `str.lower()` (ASCII case folding; all patterns involved are ASCII). -/
def pyLower (s : String) : String := ⟨s.data.map Char.toLower⟩

/-- List-of-chars version of `isPrefixOf`, self-contained. -/
def pfx : List Char → List Char → Bool
  | [], _ => true
  | _ :: _, [] => false
  | a :: p, b :: s => a == b && pfx p s

/-- Substring occurrence test on char lists: some tail of `s` starts with `p`.
Mirrors Python `p in s`. -/
def subList (p : List Char) : List Char → Bool
  | [] => pfx p []
  | c :: s => pfx p (c :: s) || subList p s

/-- Python `p in s` for strings. -/
def containsStr (s p : String) : Bool := subList p.data s.data

/-- The Excel carriage-return artifact removed by `_strip_or_empty`. -/
def x000dPat : List Char := "_x000d_".data

/-- Fueled worker for non-overlapping left-to-right removal of `_x000d_`
(Python `str.replace("_x000d_", "")`); fuel `length + 1` always suffices. -/
def rmx : Nat → List Char → List Char
  | 0, s => s
  | _ + 1, [] => []
  | f + 1, c :: s =>
    if pfx x000dPat (c :: s) then rmx f ((c :: s).drop x000dPat.length)
    else c :: rmx f s

/-- Python `s.replace("_x000d_", "")`. -/
def removeX000d (s : List Char) : List Char := rmx (s.length + 1) s

/-- Control characters removed by `re.sub(r"[\r\n\t]", "", ...)`. -/
def ctl (c : Char) : Bool := c == '\r' || c == '\n' || c == '\t'

/-- `_strip_or_empty` of the source: drop `_x000d_`, drop `\r\n\t`, strip.
(`_safe_str` is the identity on the strings modelled here.) -/
def stripOrEmpty (s : String) : String :=
  pyStrip ⟨(removeX000d s.data).filter (fun c => !ctl c)⟩

/-- `INSPECTION_TASK_TIMEOUT` (line 60). -/
def INSPECTION_TASK_TIMEOUT : Int := 600

/-- `INSPECTION_CMD_TIMEOUT` (line 62). -/
def INSPECTION_CMD_TIMEOUT : Int := 10

/-- `LONG_TIMEOUT = max(INSPECTION_CMD_TIMEOUT * 3, 240)` (line 66). -/
def LONG_TIMEOUT : Int := max (INSPECTION_CMD_TIMEOUT * 3) 240

/-- `DEFAULT_MAX_PAGE` (line 68). -/
def DEFAULT_MAX_PAGE : Nat := 200

/-- `BIG_OUTPUT_MAX_PAGE = DEFAULT_MAX_PAGE * 3` (line 69). -/
def BIG_OUTPUT_MAX_PAGE : Nat := DEFAULT_MAX_PAGE * 3

/-- `MAX_REPEAT_PAGE` (line 71). -/
def MAX_REPEAT_PAGE : Nat := 5

/-- `NO_OUTPUT_CMDS` (lines 74-79). -/
def NO_OUTPUT_CMDS : List String :=
  ["sys", "enable", "user-inter con 0", "quit",
   "undo screen-length", "screen-length disable",
   "screen-length enable", "screen-length 0",
   "screen-length 0 temporary"]

/-- `BIG_OUTPUT_CMDS` (lines 81-91). -/
def BIG_OUTPUT_CMDS : List String :=
  ["display ospf routing",
   "display ip routing-table statistics",
   "display ip routing-table",
   "display current-configuration",
   "display interface",
   "display stp",
   "display mac-address",
   "display device manuinfo",
   "display elabel"]

/-- `PAGINATION_PATTERNS` (lines 93-101). -/
def PAGINATION_PATTERNS : List String :=
  ["---- More ----",
   "  ---- More ----  ",
   "---- More ----  ",
   "  ---- More ----",
   "--More--",
   "<--- More --->",
   "<Press ENTER to continue>"]

/-- `error_patterns` of `handle_pagination` (lines 409-416). -/
def error_patterns : List String :=
  ["Permission denied",
   "Unrecognized command",
   "% Unrecognized command",
   "Error: Unrecognized command",
   "invalid input",
   "Invalid command"]

/-- `alternative_cmds` of the `screen-length` retry block (lines 423-428). -/
def alternative_cmds : List String :=
  ["screen-length 0",
   "screen-length 0 temporary",
   "undo screen-length",
   "screen-length enable"]

/-- `has_error = any(pattern in s_show for pattern in error_patterns)` (line 418). -/
def hasErrPat (s : String) : Bool := error_patterns.any fun p => containsStr s p

/-- The quoted caret of the long unrecognized-command message. -/
def caretQuoted : String := String.mk ['\x27', '^', '\x27']

/-- Long vendor message tested at lines 486 and 502. -/
def unrecogFull : String :=
  "Error: Unrecognized command found at " ++ caretQuoted ++ " position."

/-- Unrecognized-command test of lines 485-486 / 501-502 / 717-719. -/
def hasUnrecog (s : String) : Bool :=
  containsStr s "Unrecognized command" || containsStr s unrecogFull

/-- The keystroke dispatch list of line 547 (space-paging markers). -/
def moreKeyList : List String :=
  ["---- More ----", "--More--", "<--- More --->",
   "  ---- More ----  ", "---- More ----  ", "  ---- More ----"]

/-- Pagination-marker scan of lines 534-553: first stripped pattern that is
nonempty and occurs in the text (case-tolerant). -/
def findMarker (s : String) : Option String :=
  (PAGINATION_PATTERNS.map stripOrEmpty).find? fun p =>
    !(p == "") && (containsStr s p || containsStr (pyLower s) (pyLower p))

/-- Deadlock truncation warning of line 525. -/
def deadlockWarn : String :=
  "\n[警告] 多次翻页后内容无变化，可能陷入分页死循环，已强制中止。\n"

/-- Timeout warning of line 530. -/
def timeoutWarn : String :=
  "\n[警告] 分页命令执行超时，已强制中止。\n"

/-- Repeat ceiling of line 523: doubled for large-output commands. -/
def repeatCeil (big : Bool) : Nat :=
  if big then MAX_REPEAT_PAGE * 2 else MAX_REPEAT_PAGE

/-- Page-ceiling enlargement of line 473 for large-output commands. -/
def adjMaxPage (big : Bool) (mp : Nat) : Nat :=
  if big then max mp BIG_OUTPUT_MAX_PAGE else mp

/-- Timeout enlargement of line 475 for large-output commands. -/
def adjTimeout (big : Bool) (t : Int) : Int :=
  if big then min (t * 3) LONG_TIMEOUT else t

/-- Exit cause of the standard paging loop (derived bookkeeping; the Python
loop exits through the corresponding `break` statements). `fuelOut` marks
exhaustion of the recursion fuel and is proved unreachable. -/
inductive ExitK where
  | unrecog
  | deadlock
  | timeout
  | noMarker
  | pageLimit
  | fuelOut
deriving DecidableEq, Repr

/-- Result of the standard paging loop: final accumulated text, continuation
keystrokes sent, index of the iteration in which the loop broke, and exit
cause. -/
structure LoopOut where
  out : String
  sends : List String
  exitIter : Nat
  exit : ExitK
deriving DecidableEq, Repr

/-- One-command standard paging loop of `handle_pagination` (lines 489-557).
State: iteration index `i` (equals `page_count` at iteration entry), the
accumulated output `sh` (`show`), `prev` (`prev_output`), `rep`
(`repeat_count`).  `cr i` is the device reply to the continuation keystroke
sent in iteration `i`; `el i` is `time.time() - pagination_start_time`
sampled at iteration `i`'s deadline check.  Structural fuel makes the
recursion executable; adequate fuel is proved never to run out. -/
def pageLoop (big : Bool) (mp : Nat) (tAdj : Int)
    (cr : Nat → String) (el : Nat → Int) :
    Nat → Nat → String → String → Nat → LoopOut
  | 0, i, sh, _, _ => ⟨sh, [], i, .fuelOut⟩
  | fuel + 1, i, sh, prev, rep =>
    if hasUnrecog sh then ⟨sh, [], i, .unrecog⟩
    else
      let rep' := if pyStrip sh = pyStrip prev then rep + 1 else 0
      let prev' := if pyStrip sh = pyStrip prev then prev else sh
      if repeatCeil big ≤ rep' then ⟨sh ++ deadlockWarn, [], i, .deadlock⟩
      else if tAdj < el i then ⟨sh ++ timeoutWarn, [], i, .timeout⟩
      else
        match findMarker sh with
        | none => ⟨sh, [], i, .noMarker⟩
        | some p =>
          let key : Option String :=
            if p ∈ moreKeyList then some " "
            else if p = "<Press ENTER to continue>" then some "\n"
            else none
          let sh' := match key with
            | some _ => sh ++ cr i
            | none => sh
          if mp < i + 1 then ⟨sh', key.toList, i, .pageLimit⟩
          else
            let r := pageLoop big mp tAdj cr el fuel (i + 1) sh' prev' rep'
            ⟨r.out, key.toList ++ r.sends, r.exitIter, r.exit⟩

/-- The standard paging loop entered with the initial state of lines
489-493 (`page_count = 0`, `prev_output = ""`, `repeat_count = 0`). -/
def runLoop (big : Bool) (mp : Nat) (tAdj : Int)
    (cr : Nat → String) (el : Nat → Int) (sh0 : String) : LoopOut :=
  pageLoop big mp tAdj cr el (mp + 2) 0 sh0 "" 0

/-- Result of `handle_pagination`: returned text, full send trace (command
first, then retries / keystrokes), the `read_timeout` and `max_page`
in effect for the taken branch, and loop bookkeeping when the standard
loop ran. -/
structure HPOut where
  out : String
  sends : List String
  usedTimeout : Int
  usedMaxPage : Nat
  loop : Option LoopOut
deriving DecidableEq, Repr

/-- The `screen-length` alternative-command retry loop (lines 430-442):
try each alternative in order, skipping the one equal to `cmdClean`,
stopping at the first whose reply matches no error pattern.  Returns the
alternatives actually sent and the first success with its reply. -/
def tryAlts (cmdClean : String) (ar : String → String) :
    List String → List String × Option (String × String)
  | [] => ([], none)
  | a :: rest =>
    if a = cmdClean then tryAlts cmdClean ar rest
    else
      let r := ar a
      if hasErrPat r then
        let (s, o) := tryAlts cmdClean ar rest
        (a :: s, o)
      else ([a], some (a, r))

/-- No-output-command branch of `handle_pagination` (lines 399-465).
`fr` is the device reply to the initial send of `cmd`; `ar` maps an
alternative command to its reply. -/
def noOutputBranch (cmd cmdClean : String) (t : Int) (mp : Nat)
    (fr : String) (ar : String → String) : HPOut :=
  if containsStr cmdClean "screen-length" && hasErrPat fr then
    match tryAlts cmdClean ar alternative_cmds with
    | (sent, some (a, r)) =>
      ⟨"命令 " ++ cmd ++ " 执行失败，已尝试替代命令 " ++ a ++ "：" ++ pyStrip r,
       cmd :: sent, t, mp, none⟩
    | (sent, none) =>
      ⟨"命令 " ++ cmd ++ " 执行失败：" ++ pyStrip fr, cmd :: sent, t, mp, none⟩
  else if hasErrPat fr then
    ⟨"命令 " ++ cmd ++ " 执行失败：" ++ pyStrip fr, [cmd], t, mp, none⟩
  else if pyStrip fr = "" then
    ⟨"命令 " ++ cmd ++ " 执行完毕，无输出。", [cmd], t, mp, none⟩
  else if pyStrip fr = cmd then
    ⟨"命令 " ++ cmd ++ " 已发送，但可能无回显或未生效。", [cmd], t, mp, none⟩
  else ⟨fr, [cmd], t, mp, none⟩

/-- `handle_pagination(ssh, cmd, timeout_per_cmd, max_page, ...)`
(lines 379-557).  The session is the oracle triple `(fr, ar, cr)`:
`fr` answers the initial send of `cmd`, `ar` answers alternative
`screen-length` commands, `cr i` answers the `i`-th continuation
keystroke; `el` is the elapsed-time clock of the paging loop.
Debug logging (side effects only) is omitted. -/
def handle_pagination (cmd : String) (t : Int) (mp : Nat)
    (fr : String) (ar : String → String) (cr : Nat → String)
    (el : Nat → Int) : HPOut :=
  let cmdClean := stripOrEmpty cmd
  if cmdClean = "" then ⟨"跳过空命令", [], t, mp, none⟩
  else if cmdClean ∈ NO_OUTPUT_CMDS then noOutputBranch cmd cmdClean t mp fr ar
  else
    let big : Bool := cmdClean ∈ BIG_OUTPUT_CMDS
    let mp' := adjMaxPage big mp
    let tAdj := adjTimeout big t
    if hasUnrecog fr then ⟨fr, [cmd], tAdj, mp', none⟩
    else
      let lo := runLoop big mp' tAdj cr el fr
      ⟨lo.out, cmd :: lo.sends, tAdj, mp', some lo⟩

/-- Outcome of a Python attribute access: a value, attribute absent
(`getattr` default used), or the access raised. -/
inductive PyAttr (α : Type) where
  | val (a : α)
  | missing
  | raises (e : String)
deriving DecidableEq

/-- The underlying Paramiko channel as seen through `getattr(rc, "closed", False)`. -/
structure ChanM where
  closed : PyAttr Bool
deriving DecidableEq

/-- A netmiko session as seen through `getattr(ssh, "remote_conn", None)`. -/
structure SshM where
  remote_conn : PyAttr (Option ChanM)
deriving DecidableEq

/-- `channel_closed(ssh)` (lines 560-567): read-only probe; `True` when the
channel object is absent or `None`, reports closed, or inspection raises. -/
def channel_closed (s : SshM) : Bool :=
  match s.remote_conn with
  | .raises _ => true
  | .missing => true
  | .val none => true
  | .val (some c) =>
    match c.closed with
    | .raises _ => true
    | .missing => false
    | .val b => b

/-- The per-command body of `inspection` at lines 691-712: the engine call
wrapped in `try/except Exception` with a single raw-send fallback, itself
wrapped in `try/except Exception`.  `.error` means the Python code would
let an exception escape the per-command handling; it is proved
unreachable. -/
def commandBody (engineRes fallbackRes : Except String String) :
    Except String String :=
  match engineRes with
  | .ok s => .ok s
  | .error _ =>
    match fallbackRes with
    | .ok s => .ok s
    | .error _ => .ok ""

/-- Error lines logged by the per-command exception handlers
(lines 696-697 and 704-706). -/
def engineLogs (host : String) (engineRes fallbackRes : Except String String) :
    List String :=
  match engineRes with
  | .ok _ => []
  | .error e =>
    ("设备 " ++ host ++ " 分页处理异常，已禁用自动翻页并继续：" ++ e) ::
      (match fallbackRes with
       | .ok _ => []
       | .error e2 => ["设备 " ++ host ++ " 基础输出获取也失败：" ++ e2])

/-- Why the command loop of `inspection` stopped. `propagated` marks an
exception escaping per-command handling; it is proved unreachable. -/
inductive EndReason where
  | finished
  | taskTimeout
  | channelClosed
  | quitClosed
  | propagated (e : String)
deriving DecidableEq, Repr

/-- Observable outcome of the command loop of `inspection`: engine
invocations with the `timeout_per_cmd` passed, error log lines, stop
cause, and whether the task-timeout branch disconnected the session. -/
structure InspectOut where
  calls : List (Nat × Int)
  errLogs : List String
  stop : EndReason
  disconnectedEarly : Bool
deriving DecidableEq, Repr

/-- Oracles of one device inspection, indexed by absolute command position:
task clock at each command, channel probe before each command, channel
probe of the `quit` special case, and the engine / fallback outcomes
(`.error` = the call raised). -/
structure InspectEnv where
  host : String
  elapsed : Nat → Int
  closed : Nat → Bool
  closedAfterQuit : Nat → Bool
  engine : Nat → Except String String
  fallback : Nat → Except String String

/-- The command loop of `inspection` (lines 657-757): skip blank commands,
enforce the task budget, abort on a closed channel, allot
`min(INSPECTION_CMD_TIMEOUT, remaining)` to the engine, recover from
engine errors via the fallback, skip unrecognized replies, and handle
the `quit` special case. -/
def inspectCmds (env : InspectEnv) : Nat → List String → InspectOut
  | _, [] => ⟨[], [], .finished, false⟩
  | k, cmd :: rest =>
    if stripOrEmpty cmd = "" then inspectCmds env (k + 1) rest
    else
      let remaining := INSPECTION_TASK_TIMEOUT - env.elapsed k
      if remaining ≤ 0 then ⟨[], [], .taskTimeout, true⟩
      else if env.closed k then ⟨[], [], .channelClosed, false⟩
      else
        let t := min INSPECTION_CMD_TIMEOUT remaining
        match commandBody (env.engine k) (env.fallback k) with
        | .error e =>
          ⟨[(k, t)], engineLogs env.host (env.engine k) (env.fallback k),
           .propagated e, false⟩
        | .ok sh =>
          let r :=
            if hasUnrecog sh then inspectCmds env (k + 1) rest
            else if pyLower (pyStrip cmd) = "quit" ∧ env.closedAfterQuit k then
              ⟨[], [], .quitClosed, false⟩
            else inspectCmds env (k + 1) rest
          ⟨(k, t) :: r.calls,
           engineLogs env.host (env.engine k) (env.fallback k) ++ r.errLogs,
           r.stop, r.disconnectedEarly⟩

/-- `required_fields` of the `__main__` validation loop (line 825). -/
def required_fields : List String :=
  ["device_type", "host", "ip", "username", "port"]

/-- Python `str(device_info.get(f))`: an absent key yields `None`, whose
string form is `"None"`. -/
def pyGetStr (o : Option String) : String :=
  match o with
  | some s => s
  | none => "None"

/-- `missing_fields` computation of line 826: fields whose stringified,
stripped value is empty. -/
def missing_fields (d : String → Option String) : List String :=
  required_fields.filter fun f => pyGetStr (d f) |> pyStrip |>.data |>.isEmpty

/-- Comma-space join, Python `", ".join(l)`. -/
def joinComma : List String → String
  | [] => ""
  | [a] => a
  | a :: rest => a ++ ", " ++ joinComma rest

/-- Skip warning of line 828 (the trailing device-record repr is omitted
from the model). -/
def skipWarning (d : String → Option String) : String :=
  "[跳过] 设备信息字段不完整（缺失: " ++ joinComma (missing_fields d) ++ "）"

/-- What the scheduler does with one device record: warn and skip, or submit
an `inspection` task (which alone may call the provider's connect). -/
inductive SchedAction where
  | skipped (warn : String)
  | submitted
deriving DecidableEq, Repr

/-- Device-validation step of the `__main__` scheduling loop (lines 823-848). -/
def scheduleDevice (d : String → Option String) : SchedAction :=
  if missing_fields d = [] then .submitted else .skipped (skipWarning d)

/-- Accumulated paging output: `accOut fr cr n` is the `show` value after
`n` continuation replies have been appended. -/
def accOut (fr : String) (cr : Nat → String) : Nat → String
  | 0 => fr
  | n + 1 => accOut fr cr n ++ cr n

/-! Helper lemmas: substring monotonicity, accumulation, marker scan. -/

theorem pfx_self (p : List Char) : pfx p p = true := by
  induction p with
  | nil => rfl
  | cons a p ih => simp [pfx, ih]

theorem pfx_append (p s t : List Char) (h : pfx p s = true) :
    pfx p (s ++ t) = true := by
  induction p generalizing s with
  | nil => rfl
  | cons a p ih =>
    cases s with
    | nil => simp [pfx] at h
    | cons b s =>
      simp only [pfx, Bool.and_eq_true] at h
      simp only [List.cons_append, pfx, Bool.and_eq_true]
      exact ⟨h.1, ih s h.2⟩

theorem subList_nil_left (s : List Char) : subList [] s = true := by
  induction s with
  | nil => rfl
  | cons c s ih => simp [subList, pfx, ih]

theorem pfx_nil_right (p : List Char) (h : pfx p [] = true) : p = [] := by
  cases p with
  | nil => rfl
  | cons a p => simp [pfx] at h

theorem subList_refl (p : List Char) : subList p p = true := by
  cases p with
  | nil => rfl
  | cons c s => simp [subList, pfx_self]

theorem subList_append_right (p s t : List Char) (h : subList p s = true) :
    subList p (s ++ t) = true := by
  induction s with
  | nil =>
    simp only [subList] at h
    rw [pfx_nil_right p h]
    exact subList_nil_left _
  | cons c s ih =>
    simp only [subList, Bool.or_eq_true] at h
    rcases h with h | h
    · have := pfx_append p (c :: s) t h
      simp only [List.cons_append] at this ⊢
      simp [subList, this]
    · simp only [List.cons_append, subList, Bool.or_eq_true]
      exact Or.inr (ih h)

theorem subList_append_left (p s t : List Char) (h : subList p s = true) :
    subList p (t ++ s) = true := by
  induction t with
  | nil => simpa using h
  | cons c t ih => simp [subList, Bool.or_eq_true, ih]

theorem containsStr_append_right (s t p : String) (h : containsStr s p = true) :
    containsStr (s ++ t) p = true := by
  unfold containsStr at h ⊢
  rw [String.data_append]
  exact subList_append_right _ _ _ h

theorem containsStr_append_left (s t p : String) (h : containsStr s p = true) :
    containsStr (t ++ s) p = true := by
  unfold containsStr at h ⊢
  rw [String.data_append]
  exact subList_append_left _ _ _ h

theorem containsStr_self (p : String) : containsStr p p = true :=
  subList_refl p.data

theorem containsStr_append_self (s p : String) :
    containsStr (s ++ p) p = true :=
  containsStr_append_left _ _ _ (containsStr_self p)

theorem hasUnrecog_mono (s t : String) (h : hasUnrecog s = true) :
    hasUnrecog (s ++ t) = true := by
  unfold hasUnrecog at h ⊢
  rcases Bool.or_eq_true .. |>.mp h with h | h
  · exact Bool.or_eq_true .. |>.mpr (Or.inl (containsStr_append_right _ _ _ h))
  · exact Bool.or_eq_true .. |>.mpr (Or.inr (containsStr_append_right _ _ _ h))

theorem hasUnrecog_pre (s t : String) (h : hasUnrecog (s ++ t) = false) :
    hasUnrecog s = false := by
  cases hs : hasUnrecog s with
  | false => rfl
  | true => rw [hasUnrecog_mono s t hs] at h; exact absurd h (by simp)

theorem pyLower_append (s t : String) :
    pyLower (s ++ t) = pyLower s ++ pyLower t := by
  apply String.ext
  simp [pyLower, String.data_append]

theorem findMarker_isSome_mono (s t : String)
    (h : (findMarker s).isSome) : (findMarker (s ++ t)).isSome := by
  unfold findMarker at h ⊢
  rw [List.find?_isSome] at h ⊢
  obtain ⟨p, hmem, hp⟩ := h
  refine ⟨p, hmem, ?_⟩
  simp only [Bool.and_eq_true, Bool.or_eq_true] at hp ⊢
  refine ⟨hp.1, ?_⟩
  rcases hp.2 with h2 | h2
  · exact Or.inl (containsStr_append_right _ _ _ h2)
  · rw [pyLower_append]
    exact Or.inr (containsStr_append_right _ _ _ h2)

theorem findMarker_cases (s p : String) (h : findMarker s = some p) :
    p ∈ moreKeyList ∨ p = "<Press ENTER to continue>" := by
  have hmem := List.mem_of_find?_eq_some h
  have hall : ∀ x ∈ PAGINATION_PATTERNS.map stripOrEmpty,
      x ∈ moreKeyList ∨ x = "<Press ENTER to continue>" := by decide
  exact hall p hmem

theorem accOut_zero (fr : String) (cr : Nat → String) : accOut fr cr 0 = fr := rfl

theorem accOut_succ (fr : String) (cr : Nat → String) (n : Nat) :
    accOut fr cr (n + 1) = accOut fr cr n ++ cr n := rfl

theorem accOut_split (fr : String) (cr : Nat → String) (i n : Nat) (h : i ≤ n) :
    ∃ tl, accOut fr cr n = accOut fr cr i ++ tl := by
  induction n with
  | zero =>
    have : i = 0 := Nat.le_zero.mp h
    subst this
    exact ⟨"", (String.append_empty _).symm⟩
  | succ n ih =>
    rcases Nat.lt_or_ge i (n + 1) with hlt | hge
    · obtain ⟨tl, htl⟩ := ih (Nat.lt_succ_iff.mp hlt)
      exact ⟨tl ++ cr n, by rw [accOut_succ, htl, String.append_assoc]⟩
    · have : i = n + 1 := Nat.le_antisymm h hge
      subst this
      exact ⟨"", (String.append_empty _).symm⟩

theorem pyStrip_empty : pyStrip "" = "" := rfl

/-- Master bookkeeping lemma for the standard paging loop: with adequate
fuel the loop always breaks (never runs out of fuel), its exit iteration
stays within the page ceiling, every completed (non-final) iteration
passed the deadline check, and a deadline exit carries the timeout warning. -/
theorem pageLoop_spec (big : Bool) (mp : Nat) (tAdj : Int)
    (cr : Nat → String) (el : Nat → Int) :
    ∀ fuel i sh prev rep, i ≤ mp → mp + 1 ≤ i + fuel →
      ((pageLoop big mp tAdj cr el fuel i sh prev rep).exit ≠ ExitK.fuelOut) ∧
      i ≤ (pageLoop big mp tAdj cr el fuel i sh prev rep).exitIter ∧
      (pageLoop big mp tAdj cr el fuel i sh prev rep).exitIter ≤ mp ∧
      (∀ j, i ≤ j → j < (pageLoop big mp tAdj cr el fuel i sh prev rep).exitIter →
        el j ≤ tAdj) ∧
      ((pageLoop big mp tAdj cr el fuel i sh prev rep).exit = ExitK.timeout →
        containsStr (pageLoop big mp tAdj cr el fuel i sh prev rep).out timeoutWarn = true ∧
        tAdj < el (pageLoop big mp tAdj cr el fuel i sh prev rep).exitIter) := by
  intro fuel
  induction fuel with
  | zero => intro i sh prev rep h1 h2; omega
  | succ f ih =>
    intro i sh prev rep h1 h2
    simp only [pageLoop]
    repeat' split
    all_goals try dsimp only
    all_goals first
      | exact ⟨by simp, Nat.le_refl _, by omega,
          fun j hj hj2 => absurd hj2 (by omega),
          fun _ => ⟨containsStr_append_self _ _, by omega⟩⟩
      | exact ⟨by simp, Nat.le_refl _, by omega,
          fun j hj hj2 => absurd hj2 (by omega), by simp⟩
      | (obtain ⟨A, B, C, D, E⟩ := ih (i + 1) _ _ _ (by omega) (by omega)
         exact ⟨A, Nat.le_trans (Nat.le_succ i) B, C,
           fun j hj hj2 => (Nat.eq_or_lt_of_le hj).elim
             (fun hh => hh ▸ (by omega : el i ≤ tAdj))
             (fun hlt => D j hlt hj2), E⟩)

/-- Under the stationarity hypothesis the stripped accumulated output never
changes from the first page. -/
theorem accOut_strip_const (fr : String) (cr : Nat → String) (n : Nat)
    (hstrip : ∀ i < n, pyStrip (accOut fr cr (i + 1)) = pyStrip (accOut fr cr i)) :
    ∀ i, i ≤ n → pyStrip (accOut fr cr i) = pyStrip fr := by
  intro i hi
  induction i with
  | zero => rfl
  | succ k ih =>
    rw [hstrip k (by omega)]
    exact ih (by omega)

/-- Unrecognized-command absence transfers to every earlier accumulation stage. -/
theorem hasUnrecog_accOut (fr : String) (cr : Nat → String) (n i : Nat)
    (hu : hasUnrecog (accOut fr cr n) = false) (hi : i ≤ n) :
    hasUnrecog (accOut fr cr i) = false := by
  obtain ⟨tl, htl⟩ := accOut_split fr cr i n hi
  rw [htl] at hu
  exact hasUnrecog_pre _ _ hu

/-- A pagination marker in the first page stays present in every accumulation
stage. -/
theorem findMarker_accOut (fr : String) (cr : Nat → String) (i : Nat)
    (hm : (findMarker fr).isSome) : (findMarker (accOut fr cr i)).isSome := by
  obtain ⟨tl, htl⟩ := accOut_split fr cr 0 i (Nat.zero_le i)
  rw [htl, accOut_zero]
  exact findMarker_isSome_mono _ _ hm

/-- Deadlock run of the standard paging loop: if the stripped accumulated
output never changes, a marker is present from the first page, no
unrecognized-command text appears, and the clock stays within budget, then
from iteration `j ≥ 1` (entered with `repeat_count = j - 1` and baseline
`fr`) the loop breaks at iteration `repeatCeil big` with the deadlock
warning appended. -/
theorem pageLoop_deadlock_aux (big : Bool) (mp : Nat) (tAdj : Int)
    (cr : Nat → String) (el : Nat → Int) (fr : String)
    (hmp : repeatCeil big ≤ mp)
    (hu : hasUnrecog (accOut fr cr (repeatCeil big)) = false)
    (hm : (findMarker fr).isSome)
    (hstrip : ∀ i < repeatCeil big,
      pyStrip (accOut fr cr (i + 1)) = pyStrip (accOut fr cr i))
    (htime : ∀ i < repeatCeil big, el i ≤ tAdj) :
    ∀ d j fuel, 1 ≤ j → j + d = repeatCeil big → repeatCeil big - j < fuel →
      (pageLoop big mp tAdj cr el fuel j (accOut fr cr j) fr (j - 1)).out
          = accOut fr cr (repeatCeil big) ++ deadlockWarn ∧
      (pageLoop big mp tAdj cr el fuel j (accOut fr cr j) fr (j - 1)).exitIter
          = repeatCeil big ∧
      (pageLoop big mp tAdj cr el fuel j (accOut fr cr j) fr (j - 1)).exit
          = ExitK.deadlock := by
  intro d
  induction d with
  | zero =>
    intro j fuel h1 h2 h3
    have hj : j = repeatCeil big := by omega
    subst hj
    cases fuel with
    | zero => omega
    | succ f =>
      have hcmp : pyStrip (accOut fr cr (repeatCeil big)) = pyStrip fr :=
        accOut_strip_const fr cr (repeatCeil big) hstrip (repeatCeil big)
          (Nat.le_refl _)
      have hrep : repeatCeil big - 1 + 1 = repeatCeil big := by omega
      simp [pageLoop, hu, hcmp, hrep]
  | succ d ihd =>
    intro j fuel h1 h2 h3
    have hjlt : j < repeatCeil big := by omega
    cases fuel with
    | zero => omega
    | succ f =>
      have hnu : hasUnrecog (accOut fr cr j) = false :=
        hasUnrecog_accOut fr cr (repeatCeil big) j hu (by omega)
      have hcmp : pyStrip (accOut fr cr j) = pyStrip fr :=
        accOut_strip_const fr cr (repeatCeil big) hstrip j (by omega)
      have hrep : j - 1 + 1 = j := by omega
      have hdl : ¬ (repeatCeil big ≤ j) := by omega
      have hto : ¬ (tAdj < el j) := not_lt.mpr (htime j hjlt)
      obtain ⟨p, hp⟩ := Option.isSome_iff_exists.mp (findMarker_accOut fr cr j hm)
      have hkey := findMarker_cases _ _ hp
      have hpl : ¬ (mp < j + 1) := by omega
      have hih := ihd (j + 1) f (by omega) (by omega) (by omega)
      simp only [Nat.add_sub_cancel] at hih
      have hacc : accOut fr cr j ++ cr j = accOut fr cr (j + 1) :=
        (accOut_succ fr cr j).symm
      rcases hkey with hk | hk
      · simp only [pageLoop]
        simp [hnu, hcmp, hrep, hdl, hto, hp, hpl, hk, hacc]
        exact hih
      · subst hk
        have hnk : "<Press ENTER to continue>" ∉ moreKeyList := by decide
        simp only [pageLoop]
        simp [hnu, hcmp, hrep, hdl, hto, hp, hpl, hnk, hacc]
        exact hih

/-- Characterization of the alternative-command retry loop: it sends exactly
the error-replied front of the filtered alternative list and stops at the
first non-error reply. -/
theorem tryAlts_eq (c : String) (ar : String → String) (l : List String) :
    tryAlts c ar l =
      match (l.filter (fun a => !decide (a = c))).dropWhile
          (fun a => hasErrPat (ar a)) with
      | [] => (l.filter (fun a => !decide (a = c)), none)
      | a :: _ =>
        ((l.filter (fun a => !decide (a = c))).takeWhile
            (fun a => hasErrPat (ar a)) ++ [a],
         some (a, ar a)) := by
  induction l with
  | nil => simp [tryAlts]
  | cons b l ih =>
    by_cases hb : b = c
    · simpa [tryAlts, hb, List.filter_cons] using ih
    · cases he : hasErrPat (ar b) with
      | false =>
        simp [tryAlts, hb, he, List.filter_cons, List.dropWhile_cons,
          List.takeWhile_cons]
      | true =>
        rw [tryAlts]
        simp only [if_neg hb, he, if_true, ite_true, ih]
        simp only [List.filter_cons, hb, decide_eq_true_eq, not_false_iff,
          Bool.not_false, if_true, ite_true, List.dropWhile_cons,
          List.takeWhile_cons, he]
        split <;> rename_i heq <;>
          simp [List.dropWhile_cons, List.takeWhile_cons, he, heq]

/-- The head of `dropWhile p` fails the predicate. -/
theorem dropWhile_head_not (p : String → Bool) (l : List String)
    (a : String) (tl : List String) (h : l.dropWhile p = a :: tl) :
    p a = false := by
  induction l with
  | nil => simp [List.dropWhile] at h
  | cons b l ih =>
    rw [List.dropWhile_cons] at h
    split at h
    · exact ih h
    · cases h
      rename_i hpb
      simpa using hpb

/-- A member of a comma-joined list occurs in the joined string. -/
theorem joinComma_contains (l : List String) (f : String) (h : f ∈ l) :
    containsStr (joinComma l) f = true := by
  induction l with
  | nil => cases h
  | cons a l ih =>
    cases l with
    | nil =>
      rcases List.mem_singleton.mp h with rfl
      exact containsStr_self f
    | cons b l2 =>
      rcases List.mem_cons.mp h with rfl | hmem
      · show containsStr (f ++ ", " ++ joinComma (b :: l2)) f = true
        exact containsStr_append_right _ _ _
          (containsStr_append_right _ _ _ (containsStr_self f))
      · show containsStr (a ++ ", " ++ joinComma (b :: l2)) f = true
        exact containsStr_append_left _ _ _ (ih hmem)

/-- The per-command body never lets an exception escape: both the engine
call and the raw-send fallback are wrapped in catch-all handlers
(lines 692-708). -/
theorem commandBody_ok (a b : Except String String) (e : String) :
    commandBody a b ≠ Except.error e := by
  cases a <;> cases b <;> simp [commandBody]

/-- Every engine invocation recorded by the command loop was allotted
exactly `min(INSPECTION_CMD_TIMEOUT, remaining)` at a moment when the
remaining task budget was positive. -/
theorem inspectCmds_calls (env : InspectEnv) (cmds : List String) :
    ∀ k idx t, (idx, t) ∈ (inspectCmds env k cmds).calls →
      t = min INSPECTION_CMD_TIMEOUT (INSPECTION_TASK_TIMEOUT - env.elapsed idx) ∧
      0 < INSPECTION_TASK_TIMEOUT - env.elapsed idx := by
  induction cmds with
  | nil => intro k idx t h; simp [inspectCmds] at h
  | cons cmd rest ih =>
    intro k idx t h
    rw [inspectCmds] at h
    by_cases hrem : INSPECTION_TASK_TIMEOUT - env.elapsed k ≤ 0
    · rw [if_pos hrem] at h
      repeat' split at h
      all_goals try dsimp only at h
      all_goals first
        | exact absurd h (List.not_mem_nil _)
        | exact ih _ _ _ h
    · rw [if_neg hrem] at h
      repeat' split at h
      all_goals try dsimp only at h
      all_goals first
        | exact absurd h (List.not_mem_nil _)
        | exact ih _ _ _ h
        | (rcases List.mem_cons.mp h with h | h
           · simp only [Prod.mk.injEq] at h
             obtain ⟨rfl, rfl⟩ := h
             exact ⟨rfl, by omega⟩
           · first
             | exact ih _ _ _ h
             | exact absurd h (List.not_mem_nil _))

/-- A task-timeout stop of the command loop always comes with the
disconnect performed by the timeout branch (lines 672-680). -/
theorem inspectCmds_timeout_disc (env : InspectEnv) (cmds : List String) :
    ∀ k, (inspectCmds env k cmds).stop = EndReason.taskTimeout →
      (inspectCmds env k cmds).disconnectedEarly = true := by
  induction cmds with
  | nil => intro k h; simp [inspectCmds] at h
  | cons cmd rest ih =>
    intro k
    rw [inspectCmds]
    by_cases hrem : INSPECTION_TASK_TIMEOUT - env.elapsed k ≤ 0 <;>
      [rw [if_pos hrem]; rw [if_neg hrem]] <;>
      repeat' split
    all_goals try dsimp only
    all_goals intro h
    all_goals first
      | rfl
      | exact ih _ h
      | simp at h

/-- No exception ever escapes the per-command handling: the `propagated`
stop cause is unreachable. -/
theorem inspectCmds_no_prop (env : InspectEnv) (cmds : List String) :
    ∀ k e, (inspectCmds env k cmds).stop ≠ EndReason.propagated e := by
  induction cmds with
  | nil => intro k e h; simp [inspectCmds] at h
  | cons cmd rest ih =>
    intro k e
    rw [inspectCmds]
    by_cases hrem : INSPECTION_TASK_TIMEOUT - env.elapsed k ≤ 0 <;>
      [rw [if_pos hrem]; rw [if_neg hrem]] <;>
      repeat' split
    all_goals try dsimp only
    all_goals first
      | exact ih _ _
      | (rename_i heq
         exact absurd heq (commandBody_ok _ _ _))
      | simp

/-- A command whose engine invocation is reached (nonblank, budget left,
channel open) and that is not a `quit` followed by a closed channel
contributes its call and error logs and then hands control to the rest of
the command list — regardless of whether the engine call succeeded,
raised, or the fallback raised as well. -/
theorem inspectCmds_continue (env : InspectEnv) (k : Nat) (cmd : String)
    (rest : List String)
    (hne : stripOrEmpty cmd ≠ "")
    (hrem : 0 < INSPECTION_TASK_TIMEOUT - env.elapsed k)
    (hcl : env.closed k = false)
    (hq : pyLower (pyStrip cmd) = "quit" → env.closedAfterQuit k = false) :
    inspectCmds env k (cmd :: rest) =
      ⟨(k, min INSPECTION_CMD_TIMEOUT (INSPECTION_TASK_TIMEOUT - env.elapsed k))
          :: (inspectCmds env (k + 1) rest).calls,
       engineLogs env.host (env.engine k) (env.fallback k)
          ++ (inspectCmds env (k + 1) rest).errLogs,
       (inspectCmds env (k + 1) rest).stop,
       (inspectCmds env (k + 1) rest).disconnectedEarly⟩ := by
  rw [inspectCmds]
  rw [if_neg hne]
  rw [if_neg (by omega : ¬ INSPECTION_TASK_TIMEOUT - env.elapsed k ≤ 0)]
  rw [if_neg (by simp [hcl] : ¬ env.closed k = true)]
  cases heng : env.engine k with
  | error e =>
    cases hfb : env.fallback k with
    | error e2 =>
      simp only [commandBody]
      split <;> try split
      all_goals first
        | rfl
        | (rename_i hqc
           exact absurd hqc.2 (by simp [hq hqc.1]))
    | ok s2 =>
      simp only [commandBody]
      split <;> try split
      all_goals first
        | rfl
        | (rename_i hqc
           exact absurd hqc.2 (by simp [hq hqc.1]))
  | ok s =>
    simp only [commandBody]
    split <;> try split
    all_goals first
      | rfl
      | (rename_i hqc
         exact absurd hqc.2 (by simp [hq hqc.1]))

/-- Helper bounds: the repeat ceiling is positive and within the page
ceiling actually used by `handle_pagination`. -/
theorem repeatCeil_le_adjMaxPage (b : Bool) :
    repeatCeil b ≤ adjMaxPage b DEFAULT_MAX_PAGE := by
  cases b <;> decide

theorem one_le_repeatCeil (b : Bool) : 1 ≤ repeatCeil b := by
  cases b <;> decide

/-- C1: In the standard paging loop, for a command whose successive replies
leave the (stripped) accumulated output unchanged across consecutive
iterations — a marker being present and neither the unrecognized-command
guard nor the deadline firing — the loop terminates at exactly the
repeat-ceiling iteration (`MAX_REPEAT_PAGE = 5` unchanged comparisons,
doubled to `10` for large-output commands) and the returned text is the
accumulated output with the pagination-deadlock truncation warning
appended. -/
theorem c1_repeat_ceiling_deadlock (cmd : String) (t : Int) (fr : String)
    (ar : String → String) (cr : Nat → String) (el : Nat → Int) (b : Bool)
    (hno : stripOrEmpty cmd ∉ NO_OUTPUT_CMDS)
    (hne : ¬ stripOrEmpty cmd = "")
    (hb : b = decide (stripOrEmpty cmd ∈ BIG_OUTPUT_CMDS))
    (hu : hasUnrecog (accOut fr cr (repeatCeil b)) = false)
    (hm : (findMarker fr).isSome)
    (hs0 : pyStrip fr ≠ "")
    (hstrip : ∀ i < repeatCeil b,
      pyStrip (accOut fr cr (i + 1)) = pyStrip (accOut fr cr i))
    (htime : ∀ i < repeatCeil b, el i ≤ adjTimeout b t) :
    (handle_pagination cmd t DEFAULT_MAX_PAGE fr ar cr el).out
        = accOut fr cr (repeatCeil b) ++ deadlockWarn ∧
    (∃ lo, (handle_pagination cmd t DEFAULT_MAX_PAGE fr ar cr el).loop = some lo ∧
      lo.exitIter = repeatCeil b ∧ lo.exit = ExitK.deadlock) ∧
    containsStr (handle_pagination cmd t DEFAULT_MAX_PAGE fr ar cr el).out
        deadlockWarn = true ∧
    repeatCeil true = MAX_REPEAT_PAGE * 2 ∧ repeatCeil false = MAX_REPEAT_PAGE := by
  subst hb
  have hceil1 := one_le_repeatCeil (decide (stripOrEmpty cmd ∈ BIG_OUTPUT_CMDS))
  have hmp := repeatCeil_le_adjMaxPage (decide (stripOrEmpty cmd ∈ BIG_OUTPUT_CMDS))
  have hfr0 : hasUnrecog fr = false := by
    have := hasUnrecog_accOut fr cr (repeatCeil _) 0 hu (Nat.zero_le _)
    rwa [accOut_zero] at this
  have hcmp0 : ¬ (pyStrip fr = pyStrip "") := by
    rw [pyStrip_empty]; exact hs0
  obtain ⟨p, hp⟩ := Option.isSome_iff_exists.mp hm
  have haux := pageLoop_deadlock_aux (decide (stripOrEmpty cmd ∈ BIG_OUTPUT_CMDS))
    (adjMaxPage (decide (stripOrEmpty cmd ∈ BIG_OUTPUT_CMDS)) DEFAULT_MAX_PAGE)
    (adjTimeout (decide (stripOrEmpty cmd ∈ BIG_OUTPUT_CMDS)) t) cr el fr
    hmp hu hm hstrip htime
    (repeatCeil (decide (stripOrEmpty cmd ∈ BIG_OUTPUT_CMDS)) - 1) 1
    (adjMaxPage (decide (stripOrEmpty cmd ∈ BIG_OUTPUT_CMDS)) DEFAULT_MAX_PAGE + 1)
    (Nat.le_refl 1) (by omega) (by omega)
  simp only [show (1 : Nat) - 1 = 0 from rfl] at haux
  rw [show accOut fr cr 1 = fr ++ cr 0 from rfl] at haux
  simp only [handle_pagination, if_neg hne, if_neg hno, runLoop]
  rw [show adjMaxPage (decide (stripOrEmpty cmd ∈ BIG_OUTPUT_CMDS)) DEFAULT_MAX_PAGE + 2
      = (adjMaxPage (decide (stripOrEmpty cmd ∈ BIG_OUTPUT_CMDS)) DEFAULT_MAX_PAGE + 1) + 1
      from rfl]
  rw [if_neg (by simp [hfr0] : ¬ hasUnrecog fr = true)]
  simp only [pageLoop]
  rw [if_neg (by simp [hfr0] : ¬ hasUnrecog fr = true)]
  simp only [if_neg hcmp0]
  rw [if_neg (by omega : ¬ repeatCeil (decide (stripOrEmpty cmd ∈ BIG_OUTPUT_CMDS)) ≤ 0)]
  rw [if_neg (not_lt.mpr (htime 0 (by omega)))]
  rw [hp]
  try dsimp only
  rcases findMarker_cases fr p hp with hk | hk
  · rw [if_pos hk]
    rw [if_neg (by omega :
      ¬ adjMaxPage (decide (stripOrEmpty cmd ∈ BIG_OUTPUT_CMDS)) DEFAULT_MAX_PAGE < 0 + 1)]
    simp only [Nat.zero_add]
    try dsimp only
    refine ⟨?_, ⟨_, rfl, ?_, ?_⟩, ?_, by decide, by decide⟩
    · exact haux.1
    · exact haux.2.1
    · exact haux.2.2
    · have h1 : containsStr
          (accOut fr cr (repeatCeil (decide (stripOrEmpty cmd ∈ BIG_OUTPUT_CMDS)))
            ++ deadlockWarn) deadlockWarn = true := containsStr_append_self _ _
      rw [← haux.1] at h1
      exact h1
  · subst hk
    rw [if_neg (by decide : ("<Press ENTER to continue>" : String) ∉ moreKeyList)]
    rw [if_pos rfl]
    rw [if_neg (by omega :
      ¬ adjMaxPage (decide (stripOrEmpty cmd ∈ BIG_OUTPUT_CMDS)) DEFAULT_MAX_PAGE < 0 + 1)]
    simp only [Nat.zero_add]
    try dsimp only
    refine ⟨?_, ⟨_, rfl, ?_, ?_⟩, ?_, by decide, by decide⟩
    · exact haux.1
    · exact haux.2.1
    · exact haux.2.2
    · have h1 : containsStr
          (accOut fr cr (repeatCeil (decide (stripOrEmpty cmd ∈ BIG_OUTPUT_CMDS)))
            ++ deadlockWarn) deadlockWarn = true := containsStr_append_self _ _
      rw [← haux.1] at h1
      exact h1

/-- Witness for C1: a command outside the special sets, a first page holding
a `---- More ----` marker, and a device that never sends anything more:
the loop stops after 5 unchanged comparisons with the deadlock warning. -/
theorem c1_repeat_ceiling_deadlock_witness :
    (handle_pagination "x" 10 DEFAULT_MAX_PAGE "a ---- More ----" (fun _ => "")
        (fun _ => "") (fun _ => 0)).out
      = accOut "a ---- More ----" (fun _ => "") (repeatCeil false) ++ deadlockWarn ∧
    (∃ lo, (handle_pagination "x" 10 DEFAULT_MAX_PAGE "a ---- More ----" (fun _ => "")
        (fun _ => "") (fun _ => 0)).loop = some lo ∧
      lo.exitIter = repeatCeil false ∧ lo.exit = ExitK.deadlock) ∧
    containsStr (handle_pagination "x" 10 DEFAULT_MAX_PAGE "a ---- More ----" (fun _ => "")
        (fun _ => "") (fun _ => 0)).out deadlockWarn = true ∧
    repeatCeil true = MAX_REPEAT_PAGE * 2 ∧ repeatCeil false = MAX_REPEAT_PAGE :=
  c1_repeat_ceiling_deadlock "x" 10 "a ---- More ----" (fun _ => "") (fun _ => "")
    (fun _ => 0) false (by decide) (by decide) (by decide) (by decide) (by decide)
    (by decide) (by decide) (by decide)

/-- C2 (amended): every engine invocation of the command loop is allotted
exactly `min(INSPECTION_CMD_TIMEOUT, remaining)`, which never exceeds the
remaining budget, and only happens while the remaining budget is positive;
a task-timeout stop disconnects the session before returning.  (The
original claim's aside fails: the engine itself may enlarge the timeout of
a large-output command beyond the remaining budget — see the
counterexample.) -/
theorem c2_budget_invariant :
    (∀ env cmds k idx t, (idx, t) ∈ (inspectCmds env k cmds).calls →
      t = min INSPECTION_CMD_TIMEOUT (INSPECTION_TASK_TIMEOUT - env.elapsed idx) ∧
      t ≤ INSPECTION_TASK_TIMEOUT - env.elapsed idx ∧
      0 < INSPECTION_TASK_TIMEOUT - env.elapsed idx) ∧
    (∀ env cmds k, (inspectCmds env k cmds).stop = EndReason.taskTimeout →
      (inspectCmds env k cmds).disconnectedEarly = true) := by
  constructor
  · intro env cmds k idx t h
    obtain ⟨h1, h2⟩ := inspectCmds_calls env cmds k idx t h
    exact ⟨h1, by rw [h1]; exact min_le_right _ _, h2⟩
  · intro env cmds k
    exact inspectCmds_timeout_disc env cmds k

/-- Witness for C2: a one-command inspection whose single engine call gets
the full default command timeout. -/
theorem c2_budget_invariant_witness :
    (10 : Int) = min INSPECTION_CMD_TIMEOUT
      (INSPECTION_TASK_TIMEOUT -
        (InspectEnv.mk "h" (fun _ => 0) (fun _ => false) (fun _ => false)
          (fun _ => Except.ok "y") (fun _ => Except.ok "y")).elapsed 0) ∧
    (10 : Int) ≤ INSPECTION_TASK_TIMEOUT -
      (InspectEnv.mk "h" (fun _ => 0) (fun _ => false) (fun _ => false)
        (fun _ => Except.ok "y") (fun _ => Except.ok "y")).elapsed 0 ∧
    0 < INSPECTION_TASK_TIMEOUT -
      (InspectEnv.mk "h" (fun _ => 0) (fun _ => false) (fun _ => false)
        (fun _ => Except.ok "y") (fun _ => Except.ok "y")).elapsed 0 :=
  c2_budget_invariant.1
    (InspectEnv.mk "h" (fun _ => 0) (fun _ => false) (fun _ => false)
      (fun _ => Except.ok "y") (fun _ => Except.ok "y"))
    ["display stp"] 0 0 10 (by decide)

/-- Counterexample for C2 as stated: with 5 seconds of budget left the
command loop allots `min(10, 5) = 5` seconds, but `handle_pagination`
enlarges the timeout of the large-output command `display interface` to
`min(5*3, 240) = 15` seconds, exceeding the remaining budget. -/
theorem c2_big_timeout_counterexample :
    (handle_pagination "display interface"
        (min INSPECTION_CMD_TIMEOUT (INSPECTION_TASK_TIMEOUT - 595))
        DEFAULT_MAX_PAGE "out" (fun _ => "") (fun _ => "") (fun _ => 0)).usedTimeout
      = 15 ∧
    INSPECTION_TASK_TIMEOUT - 595 < (15 : Int) := by decide

/-- C3: exceptions of the per-command handling never escape — the engine
call and the fallback raw send are both wrapped in catch-all handlers, the
`propagated` stop cause is unreachable — and a command whose engine call
raised still hands control to the remaining commands, provided the channel
is not confirmed closed and the budget is not exhausted (the only break
exceptions the source allows). -/
theorem c3_exceptions_contained :
    (∀ a b e, commandBody a b ≠ Except.error e) ∧
    (∀ env k cmds e, (inspectCmds env k cmds).stop ≠ EndReason.propagated e) ∧
    (∀ env k cmd rest,
      stripOrEmpty cmd ≠ "" →
      0 < INSPECTION_TASK_TIMEOUT - env.elapsed k →
      env.closed k = false →
      (pyLower (pyStrip cmd) = "quit" → env.closedAfterQuit k = false) →
      inspectCmds env k (cmd :: rest) =
        ⟨(k, min INSPECTION_CMD_TIMEOUT (INSPECTION_TASK_TIMEOUT - env.elapsed k))
            :: (inspectCmds env (k + 1) rest).calls,
         engineLogs env.host (env.engine k) (env.fallback k)
            ++ (inspectCmds env (k + 1) rest).errLogs,
         (inspectCmds env (k + 1) rest).stop,
         (inspectCmds env (k + 1) rest).disconnectedEarly⟩) :=
  ⟨commandBody_ok,
   fun env k cmds e => inspectCmds_no_prop env cmds k e,
   inspectCmds_continue⟩

/-- Witness for C3: an engine call that raises is caught, logged and the
loop continues into the (empty) rest of the command list. -/
theorem c3_exceptions_contained_witness :
    commandBody (Except.error "boom") (Except.ok "y") ≠ Except.error "boom" ∧
    inspectCmds
        (InspectEnv.mk "h" (fun _ => 0) (fun _ => false) (fun _ => false)
          (fun _ => Except.error "boom") (fun _ => Except.ok "y")) 0
        ("display stp" :: []) =
      ⟨(0, min INSPECTION_CMD_TIMEOUT
          (INSPECTION_TASK_TIMEOUT -
            (InspectEnv.mk "h" (fun _ => 0) (fun _ => false) (fun _ => false)
              (fun _ => Except.error "boom") (fun _ => Except.ok "y")).elapsed 0))
          :: (inspectCmds
            (InspectEnv.mk "h" (fun _ => 0) (fun _ => false) (fun _ => false)
              (fun _ => Except.error "boom") (fun _ => Except.ok "y")) 1 []).calls,
       engineLogs "h" (Except.error "boom") (Except.ok "y")
          ++ (inspectCmds
            (InspectEnv.mk "h" (fun _ => 0) (fun _ => false) (fun _ => false)
              (fun _ => Except.error "boom") (fun _ => Except.ok "y")) 1 []).errLogs,
       (inspectCmds
          (InspectEnv.mk "h" (fun _ => 0) (fun _ => false) (fun _ => false)
            (fun _ => Except.error "boom") (fun _ => Except.ok "y")) 1 []).stop,
       (inspectCmds
          (InspectEnv.mk "h" (fun _ => 0) (fun _ => false) (fun _ => false)
            (fun _ => Except.error "boom") (fun _ => Except.ok "y")) 1 []).disconnectedEarly⟩ :=
  ⟨c3_exceptions_contained.1 (Except.error "boom") (Except.ok "y") "boom",
   c3_exceptions_contained.2.2
     (InspectEnv.mk "h" (fun _ => 0) (fun _ => false) (fun _ => false)
       (fun _ => Except.error "boom") (fun _ => Except.ok "y"))
     0 "display stp" [] (by decide) (by decide) (by decide) (by decide)⟩

/-- Counterexample for C4 as stated: a device record whose required keys are
entirely absent is NOT skipped — `str(device_info.get(f))` turns an absent
key into the non-empty string `"None"`, so the validation loop submits the
record and the provider's connect would be invoked for it. -/
theorem c4_absent_field_counterexample :
    scheduleDevice (fun _ => none) = SchedAction.submitted ∧
    missing_fields (fun _ => none) = [] := by decide

/-- C4 (amended): a device record with a required field that is present but
empty or whitespace-only is skipped before scheduling — the field appears
in `missing_fields`, the recorded warning names it, and the record is
never submitted (hence the Session Provider's connect is never invoked for
it).  Absent keys, however, stringify to `"None"` and escape the check. -/
theorem c4_blank_field_skip (d : String → Option String) (f v : String)
    (hf : f ∈ required_fields) (hv : d f = some v) (hblank : pyStrip v = "") :
    f ∈ missing_fields d ∧
    scheduleDevice d = SchedAction.skipped (skipWarning d) ∧
    containsStr (skipWarning d) f = true ∧
    scheduleDevice d ≠ SchedAction.submitted := by
  have hmem : f ∈ missing_fields d := by
    unfold missing_fields
    refine List.mem_filter.mpr ⟨hf, ?_⟩
    rw [hv]
    simp [pyGetStr, hblank]
  have hne : missing_fields d ≠ [] := List.ne_nil_of_mem hmem
  refine ⟨hmem, ?_, ?_, ?_⟩
  · unfold scheduleDevice
    rw [if_neg hne]
  · unfold skipWarning
    exact containsStr_append_right _ _ _
      (containsStr_append_left _ _ _ (joinComma_contains (missing_fields d) f hmem))
  · unfold scheduleDevice
    rw [if_neg hne]
    simp

/-- Witness for C4 (amended): a record whose `username` is whitespace-only
is skipped with a warning naming `username`. -/
theorem c4_blank_field_skip_witness :
    "username" ∈ missing_fields
        (fun x => if x = "username" then some "   " else some "x") ∧
    scheduleDevice (fun x => if x = "username" then some "   " else some "x")
        = SchedAction.skipped
          (skipWarning (fun x => if x = "username" then some "   " else some "x")) ∧
    containsStr
        (skipWarning (fun x => if x = "username" then some "   " else some "x"))
        "username" = true ∧
    scheduleDevice (fun x => if x = "username" then some "   " else some "x")
        ≠ SchedAction.submitted :=
  c4_blank_field_skip (fun x => if x = "username" then some "   " else some "x")
    "username" "   " (by decide) (by decide) (by decide)

/-- C5: for a no-output `screen-length` command whose first reply matches an
error pattern and for which some alternative spelling succeeds,
`handle_pagination` tries exactly the error-replied front of the
alternative list (in order, skipping the spelling equal to the cleaned
command, each at most once since the filtered list is duplicate-free),
stops at the first non-error reply, and returns the status string naming
the successful alternative. -/
theorem c5_alternative_retry (cmd : String) (t : Int) (mp : Nat) (fr : String)
    (ar : String → String) (cr : Nat → String) (el : Nat → Int)
    (hno : stripOrEmpty cmd ∈ NO_OUTPUT_CMDS)
    (hsl : containsStr (stripOrEmpty cmd) "screen-length" = true)
    (herr : hasErrPat fr = true)
    (a : String) (tl : List String)
    (hd : (alternative_cmds.filter (fun x => !decide (x = stripOrEmpty cmd))).dropWhile
        (fun x => hasErrPat (ar x)) = a :: tl) :
    (handle_pagination cmd t mp fr ar cr el).out
        = "命令 " ++ cmd ++ " 执行失败，已尝试替代命令 " ++ a ++ "：" ++ pyStrip (ar a) ∧
    (handle_pagination cmd t mp fr ar cr el).sends
        = cmd :: ((alternative_cmds.filter (fun x => !decide (x = stripOrEmpty cmd))).takeWhile
            (fun x => hasErrPat (ar x)) ++ [a]) ∧
    hasErrPat (ar a) = false ∧
    (∀ b2 ∈ (alternative_cmds.filter (fun x => !decide (x = stripOrEmpty cmd))).takeWhile
        (fun x => hasErrPat (ar x)), hasErrPat (ar b2) = true) ∧
    ((alternative_cmds.filter (fun x => !decide (x = stripOrEmpty cmd))).takeWhile
        (fun x => hasErrPat (ar x)) ++ [a]) ++ tl
      = alternative_cmds.filter (fun x => !decide (x = stripOrEmpty cmd)) ∧
    (alternative_cmds.filter (fun x => !decide (x = stripOrEmpty cmd))).Nodup ∧
    stripOrEmpty cmd ∉ alternative_cmds.filter (fun x => !decide (x = stripOrEmpty cmd)) := by
  have hne : ¬ stripOrEmpty cmd = "" := by
    have hall : ∀ x ∈ NO_OUTPUT_CMDS, x ≠ "" := by decide
    exact hall _ hno
  simp only [handle_pagination, if_neg hne, if_pos hno, noOutputBranch]
  rw [if_pos (by simp [hsl, herr])]
  rw [tryAlts_eq, hd]
  try dsimp only
  refine ⟨rfl, rfl,
    dropWhile_head_not (fun x => hasErrPat (ar x))
      (alternative_cmds.filter (fun x => !decide (x = stripOrEmpty cmd))) a tl hd,
    fun b2 hb2 => @List.mem_takeWhile_imp String (fun x => hasErrPat (ar x))
      (alternative_cmds.filter (fun x => !decide (x = stripOrEmpty cmd))) b2 hb2,
    ?_, ?_, ?_⟩
  · have hsplit := List.takeWhile_append_dropWhile
      (fun x => hasErrPat (ar x))
      (alternative_cmds.filter (fun x => !decide (x = stripOrEmpty cmd)))
    rw [hd] at hsplit
    rw [List.append_assoc]
    simpa using hsplit
  · exact (by decide : alternative_cmds.Nodup).filter _
  · intro hmem
    have hh := (List.mem_filter.mp hmem).2
    simp at hh

/-- Witness for C5: `screen-length disable` fails with an error reply, the
first alternative also fails, the second succeeds and is reported. -/
theorem c5_alternative_retry_witness :
    (handle_pagination "screen-length disable" 10 200 "Unrecognized command"
        (fun x => if x = "screen-length 0" then "Invalid command" else "")
        (fun _ => "") (fun _ => 0)).out
      = "命令 " ++ "screen-length disable" ++ " 执行失败，已尝试替代命令 "
          ++ "screen-length 0 temporary" ++ "："
          ++ pyStrip ((fun x : String =>
                if x = "screen-length 0" then "Invalid command" else "")
              "screen-length 0 temporary") ∧
    (handle_pagination "screen-length disable" 10 200 "Unrecognized command"
        (fun x => if x = "screen-length 0" then "Invalid command" else "")
        (fun _ => "") (fun _ => 0)).sends
      = "screen-length disable" ::
          ((alternative_cmds.filter
              (fun x => !decide (x = stripOrEmpty "screen-length disable"))).takeWhile
            (fun x => hasErrPat ((fun x : String =>
                if x = "screen-length 0" then "Invalid command" else "") x))
            ++ ["screen-length 0 temporary"]) ∧
    hasErrPat ((fun x : String =>
        if x = "screen-length 0" then "Invalid command" else "")
      "screen-length 0 temporary") = false ∧
    (∀ b2 ∈ (alternative_cmds.filter
        (fun x => !decide (x = stripOrEmpty "screen-length disable"))).takeWhile
        (fun x => hasErrPat ((fun x : String =>
            if x = "screen-length 0" then "Invalid command" else "") x)),
      hasErrPat ((fun x : String =>
          if x = "screen-length 0" then "Invalid command" else "") b2) = true) ∧
    ((alternative_cmds.filter
        (fun x => !decide (x = stripOrEmpty "screen-length disable"))).takeWhile
        (fun x => hasErrPat ((fun x : String =>
            if x = "screen-length 0" then "Invalid command" else "") x))
        ++ ["screen-length 0 temporary"])
        ++ ["undo screen-length", "screen-length enable"]
      = alternative_cmds.filter
          (fun x => !decide (x = stripOrEmpty "screen-length disable")) ∧
    (alternative_cmds.filter
        (fun x => !decide (x = stripOrEmpty "screen-length disable"))).Nodup ∧
    stripOrEmpty "screen-length disable" ∉ alternative_cmds.filter
        (fun x => !decide (x = stripOrEmpty "screen-length disable")) :=
  c5_alternative_retry "screen-length disable" 10 200 "Unrecognized command"
    (fun x => if x = "screen-length 0" then "Invalid command" else "")
    (fun _ => "") (fun _ => 0) (by decide) (by decide) (by decide)
    "screen-length 0 temporary" ["undo screen-length", "screen-length enable"]
    (by decide)

/-- C6 (amended): the standard paging loop never completes an iteration
whose deadline check saw elapsed time beyond the budget — so it terminates
no later than the first post-deadline polling iteration — and whenever the
exit is through the deadline guard the returned text carries the timeout
warning and the clock had indeed passed the budget.  (As originally
stated, the claim fails: the unrecognized-command or repeat-ceiling guard
can fire in that same iteration and exit without a timeout warning — see
the counterexample.) -/
theorem c6_deadline_guard (big : Bool) (mp : Nat) (tAdj : Int)
    (cr : Nat → String) (el : Nat → Int) (sh0 : String) :
    (∀ i, i < (runLoop big mp tAdj cr el sh0).exitIter → el i ≤ tAdj) ∧
    ((runLoop big mp tAdj cr el sh0).exit = ExitK.timeout →
      containsStr (runLoop big mp tAdj cr el sh0).out timeoutWarn = true ∧
      tAdj < el (runLoop big mp tAdj cr el sh0).exitIter) := by
  have h := pageLoop_spec big mp tAdj cr el (mp + 2) 0 sh0 "" 0
    (Nat.zero_le _) (by omega)
  exact ⟨fun i hi => h.2.2.2.1 i (Nat.zero_le _) hi, h.2.2.2.2⟩

/-- Witness for C6: an immediately-late clock makes the loop exit through
the deadline guard in its first iteration with the timeout warning. -/
theorem c6_deadline_guard_witness :
    containsStr (runLoop false 200 10 (fun _ => "b") (fun _ => 100)
        "a ---- More ----").out timeoutWarn = true ∧
    (10 : Int) < (100 : Int) :=
  (c6_deadline_guard false 200 10 (fun _ => "b") (fun _ => 100)
    "a ---- More ----").2 (by decide)

/-- Counterexample for C6 as stated: the deadline passes at iteration 5
(elapsed 100 > budget 10), yet the repeat-ceiling guard fires first in that
iteration, so the loop exits with the deadlock warning and the returned
text contains NO timeout warning. -/
theorem c6_preempted_timeout_counterexample :
    (10 : Int) < (if 5 ≤ 5 then (100 : Int) else 0) ∧
    (handle_pagination "x" 10 DEFAULT_MAX_PAGE "a ---- More ----" (fun _ => "")
        (fun _ => "") (fun i => if 5 ≤ i then (100 : Int) else 0)).loop
      = some ⟨"a ---- More ----" ++ deadlockWarn, [" ", " ", " ", " ", " "], 5,
          ExitK.deadlock⟩ ∧
    containsStr (handle_pagination "x" 10 DEFAULT_MAX_PAGE "a ---- More ----"
        (fun _ => "") (fun _ => "")
        (fun i => if 5 ≤ i then (100 : Int) else 0)).out timeoutWarn = false := by
  decide

/-- C7: for a large-output command `handle_pagination` raises the page
ceiling to `600 = 3 × DEFAULT_MAX_PAGE` and triples the per-command
timeout capped at `LONG_TIMEOUT = max(3 × INSPECTION_CMD_TIMEOUT, 240)`,
before the standard paging loop runs. -/
theorem c7_big_output_adjustment (cmd : String) (t : Int) (fr : String)
    (ar : String → String) (cr : Nat → String) (el : Nat → Int)
    (hbig : stripOrEmpty cmd ∈ BIG_OUTPUT_CMDS) :
    (handle_pagination cmd t DEFAULT_MAX_PAGE fr ar cr el).usedMaxPage = 600 ∧
    BIG_OUTPUT_MAX_PAGE = 3 * DEFAULT_MAX_PAGE ∧
    (handle_pagination cmd t DEFAULT_MAX_PAGE fr ar cr el).usedTimeout
        = min (t * 3) LONG_TIMEOUT ∧
    LONG_TIMEOUT = max (3 * INSPECTION_CMD_TIMEOUT) 240 := by
  have hno : stripOrEmpty cmd ∉ NO_OUTPUT_CMDS := by
    have hall : ∀ x ∈ BIG_OUTPUT_CMDS, x ∉ NO_OUTPUT_CMDS := by decide
    exact hall _ hbig
  have hne : ¬ stripOrEmpty cmd = "" := by
    have hall : ∀ x ∈ BIG_OUTPUT_CMDS, x ≠ "" := by decide
    exact hall _ hbig
  have hb : decide (stripOrEmpty cmd ∈ BIG_OUTPUT_CMDS) = true := decide_eq_true hbig
  simp only [handle_pagination, if_neg hne, if_neg hno, hb]
  by_cases hu : hasUnrecog fr = true
  · simp [hu, adjMaxPage, adjTimeout]
    exact ⟨by decide, by decide, by decide⟩
  · simp [hu, adjMaxPage, adjTimeout]
    exact ⟨by decide, by decide, by decide⟩

/-- Witness for C7 at `display stp` with the default 10-second timeout. -/
theorem c7_big_output_adjustment_witness :
    (handle_pagination "display stp" 10 DEFAULT_MAX_PAGE "zzz" (fun _ => "")
        (fun _ => "") (fun _ => 0)).usedMaxPage = 600 ∧
    BIG_OUTPUT_MAX_PAGE = 3 * DEFAULT_MAX_PAGE ∧
    (handle_pagination "display stp" 10 DEFAULT_MAX_PAGE "zzz" (fun _ => "")
        (fun _ => "") (fun _ => 0)).usedTimeout = min (10 * 3) LONG_TIMEOUT ∧
    LONG_TIMEOUT = max (3 * INSPECTION_CMD_TIMEOUT) 240 :=
  c7_big_output_adjustment "display stp" 10 "zzz" (fun _ => "") (fun _ => "")
    (fun _ => 0) (by decide)

/-- C8: the standard paging loop always terminates — with the fuel
`mp + 2` it reaches a genuine break, executing at most `mp + 2` loop
iterations (its exit iteration is at most `mp + 1`-th), and every
completed (non-final) iteration began with elapsed time within the
timeout budget, so wall time is bounded by the budget plus the final
iteration's single blocking read. -/
theorem c8_loop_bounded (big : Bool) (mp : Nat) (tAdj : Int)
    (cr : Nat → String) (el : Nat → Int) (sh0 : String) :
    (runLoop big mp tAdj cr el sh0).exit ≠ ExitK.fuelOut ∧
    (runLoop big mp tAdj cr el sh0).exitIter + 1 ≤ mp + 2 ∧
    (∀ i, i < (runLoop big mp tAdj cr el sh0).exitIter → el i ≤ tAdj) := by
  simp only [runLoop]
  have h := pageLoop_spec big mp tAdj cr el (mp + 2) 0 sh0 "" 0
    (Nat.zero_le _) (by omega)
  refine ⟨h.1, ?_, fun i hi => h.2.2.2.1 i (Nat.zero_le _) hi⟩
  have h2 := h.2.2.1
  omega

/-- Witness for C8: the deadlocking run breaks at iteration 5 ≤ 201, and a
non-final iteration (index 3) was within the budget. -/
theorem c8_loop_bounded_witness :
    (runLoop false 200 10 (fun _ => "") (fun _ => 0) "a ---- More ----").exit
      ≠ ExitK.fuelOut ∧
    ((0 : Int) ≤ (10 : Int)) :=
  ⟨(c8_loop_bounded false 200 10 (fun _ => "") (fun _ => 0) "a ---- More ----").1,
   (c8_loop_bounded false 200 10 (fun _ => "") (fun _ => 0) "a ---- More ----").2.2
     3 (by decide)⟩

/-- C9: a blank (empty/whitespace-only) command is never sent — the engine
returns the skip string with an empty send trace, and the inspection
command loop skips it entirely, touching none of its per-command oracles. -/
theorem c9_blank_never_sent :
    (∀ cmd t mp fr ar cr el, stripOrEmpty cmd = "" →
      handle_pagination cmd t mp fr ar cr el
        = ⟨"跳过空命令", [], t, mp, none⟩) ∧
    (∀ env k cmd rest, stripOrEmpty cmd = "" →
      inspectCmds env k (cmd :: rest) = inspectCmds env (k + 1) rest) := by
  constructor
  · intro cmd t mp fr ar cr el h
    simp [handle_pagination, h]
  · intro env k cmd rest h
    rw [inspectCmds, if_pos h]

/-- Witness for C9 at a whitespace-only command. -/
theorem c9_blank_never_sent_witness :
    handle_pagination " \t " 10 200 "x" (fun _ => "") (fun _ => "") (fun _ => 0)
      = ⟨"跳过空命令", [], 10, 200, none⟩ ∧
    inspectCmds
        (InspectEnv.mk "h" (fun _ => 0) (fun _ => false) (fun _ => false)
          (fun _ => Except.ok "y") (fun _ => Except.ok "y")) 0 (" \t " :: [])
      = inspectCmds
        (InspectEnv.mk "h" (fun _ => 0) (fun _ => false) (fun _ => false)
          (fun _ => Except.ok "y") (fun _ => Except.ok "y")) 1 [] :=
  ⟨c9_blank_never_sent.1 " \t " 10 200 "x" (fun _ => "") (fun _ => "")
      (fun _ => 0) (by decide),
   c9_blank_never_sent.2
     (InspectEnv.mk "h" (fun _ => 0) (fun _ => false) (fun _ => false)
       (fun _ => Except.ok "y") (fun _ => Except.ok "y")) 0 " \t " [] (by decide)⟩

/-- C10: `channel_closed` is a total, read-only boolean probe — it performs
no send — and it returns `true` exactly when the session has no channel
attribute (or it is `None`), the channel reports closed, or inspecting
either attribute raises. -/
theorem c10_channel_closed_spec (s : SshM) :
    channel_closed s = true ↔
      (s.remote_conn = PyAttr.missing ∨
       (∃ e, s.remote_conn = PyAttr.raises e) ∨
       s.remote_conn = PyAttr.val none ∨
       (∃ c, s.remote_conn = PyAttr.val (some c) ∧
         (c.closed = PyAttr.val true ∨ ∃ e, c.closed = PyAttr.raises e))) := by
  obtain ⟨rc⟩ := s
  cases rc with
  | missing => simp [channel_closed]
  | raises e => simp [channel_closed]
  | val o =>
    cases o with
    | none => simp [channel_closed]
    | some c =>
      obtain ⟨cl⟩ := c
      cases cl with
      | missing => simp [channel_closed]
      | raises e => simp [channel_closed]
      | val b => cases b <;> simp [channel_closed]
